import Mathlib

/-!
Verification development for the KYC gateway (src/index.js).

The gateway's core is embedded shallowly: pure JS functions become Lean
functions over `String`/`List Char`; the two network calls (remote image GET,
upstream POST) are modelled by passing the network outcome (`NetOutcome`) as an
explicit argument, together with a `Bool` flag recording whether the call was
actually issued; platform builtins (`new URL`, `JSON.parse`, `Buffer.toString`,
JS string methods) are modelled by executable Lean definitions noted as such.
-/

namespace KycGate

/-- ASCII letter test (via character codes: A-Z, a-z). -/
def isAsciiAlpha (c : Char) : Bool :=
  let n := c.toNat
  (65 ≤ n && n ≤ 90) || (97 ≤ n && n ≤ 122)

/-- ASCII digit test (via character codes: 0-9). -/
def isAsciiDigit (c : Char) : Bool :=
  let n := c.toNat
  48 ≤ n && n ≤ 57

/-- Model of the JS whitespace class used by `trim` and the regex class
of whitespace characters (ASCII part: space, tab, LF, CR, VT, FF). -/
def jsWs (c : Char) : Bool :=
  [' ', '\t', '\n', '\r', '\x0b', '\x0c'].contains c

/-- Model of JS `String.prototype.trim` (ASCII whitespace). -/
def jsTrim (s : String) : String :=
  String.mk (((s.toList.dropWhile jsWs).reverse.dropWhile jsWs).reverse)

/-- Model of JS `String.prototype.toLowerCase` (ASCII). -/
def jsToLower (s : String) : String :=
  String.mk (s.toList.map Char.toLower)

/-- Model of JS `s.replace(/\s+/g, '')`: remove every whitespace character. -/
def stripAllWs (s : String) : String :=
  String.mk (s.toList.filter (fun c => !(jsWs c)))

/-- Model of JS `String.prototype.endsWith`. -/
def jsEndsWith (s suffix0 : String) : Bool :=
  suffix0.toList.isSuffixOf s.toList

/-- `hasSubList pat cs`: does `pat` occur as a contiguous sublist of `cs`? -/
def hasSubList (pat : List Char) : List Char → Bool
  | [] => pat.isEmpty
  | c :: rest => pat.isPrefixOf (c :: rest) || hasSubList pat rest

/-- Model of JS `String.prototype.includes` (substring containment). -/
def jsIncludes (s sub : String) : Bool :=
  hasSubList sub.toList s.toList

/-- Model of `s.slice(s.indexOf(',') + 1)` guarded by `s.indexOf(',') >= 0`:
the characters strictly after the first comma, or `none` when no comma occurs. -/
def afterFirstComma : List Char → Option (List Char)
  | [] => none
  | c :: rest => if c = ',' then some rest else afterFirstComma rest

/-- JS `a || b` on optional strings, with JS truthiness: the empty string and
a missing value fall through to `b`. -/
def jsOr (a b : Option String) : Option String :=
  match a with
  | some s => if s = "" then b else some s
  | none => b

/-- A trailing `|| null` in JS: a falsy value becomes `null`. -/
def jsOrNull (a : Option String) : Option String :=
  match a with
  | some s => if s = "" then none else some s
  | none => none

/-- JS truthiness of an optional string (`undefined`/`null`/`""` are falsy). -/
def isTruthy : Option String → Bool
  | some s => s ≠ ""
  | none => false

/-- Digit run to a natural number. -/
def digitsToNat : List Char → Nat → Nat
  | [], acc => acc
  | d :: ds, acc => digitsToNat ds (10 * acc + (d.toNat - 48))

/-- Model of JS `Number.parseInt(s, 10)`: skip leading whitespace, optional
sign, then the leading digit run; `none` models `NaN` (no digits). -/
def parseIntBase10 (s : String) : Option Int :=
  match s.toList.dropWhile jsWs with
  | '-' :: rest =>
    match List.span isAsciiDigit rest with
    | ([], _) => none
    | (ds, _) => some (-(digitsToNat ds 0 : Int))
  | '+' :: rest =>
    match List.span isAsciiDigit rest with
    | ([], _) => none
    | (ds, _) => some (digitsToNat ds 0 : Int)
  | cs =>
    match List.span isAsciiDigit cs with
    | ([], _) => none
    | (ds, _) => some (digitsToNat ds 0 : Int)

/-! ## Remote URL normalisation (src/index.js, normalizeRemoteUrl) -/

/-- `normalizeRemoteUrl` from src/index.js: `null` stays `null`; a string that
trims to empty becomes `null`; otherwise trim and strip all internal
whitespace. -/
def normalizeRemoteUrl (input : Option String) : Option String :=
  match input with
  | none => none
  | some s =>
    if jsTrim s = "" then none
    else some (stripAllWs (jsTrim s))

/-! ## WHATWG URL model (`new URL(s)`), scheme/host fragment -/

/-- The parts of a parsed URL the gateway reads: `protocol` carries its
trailing colon (as in JS `url.protocol`), `hostname` is the host. -/
structure ParsedUrl where
  protocol : String
  hostname : String
deriving DecidableEq, Repr

/-- Split a character list at the first colon. `none` when no colon occurs. -/
def takeUntilColon : List Char → Option (List Char × List Char)
  | [] => none
  | c :: rest =>
    if c = ':' then some ([], rest)
    else
      match takeUntilColon rest with
      | some (pre, post) => some (c :: pre, post)
      | none => none

/-- A valid URL scheme: a letter followed by letters, digits, `+`, `-`, `.`. -/
def validSchemeChars : List Char → Bool
  | [] => false
  | c :: rest => isAsciiAlpha c && rest.all (fun d =>
      isAsciiAlpha d || isAsciiDigit d || d = '+' || d = '-' || d = '.')

/-- WHATWG special schemes. -/
def isSpecialScheme (s : String) : Bool :=
  s == "http" || s == "https" || s == "ws" || s == "wss" || s == "ftp" || s == "file"

/-- Drop the run of `/` and `\` separators after the scheme colon of a
special-scheme URL. -/
def dropSlashes : List Char → List Char
  | [] => []
  | c :: rest => if c = '/' || c = '\\' then dropSlashes rest else c :: rest

/-- The authority component: characters up to the first `/`, `\`, `?` or `#`. -/
def takeAuthority : List Char → List Char
  | [] => []
  | c :: rest =>
    if c = '/' || c = '\\' || c = '?' || c = '#' then []
    else c :: takeAuthority rest

/-- The host-and-port part of an authority: everything after the last `@`
(userinfo), or the whole authority when no `@` occurs. -/
def afterLastAt (cs : List Char) : List Char :=
  ((cs.reverse).takeWhile (fun c => c ≠ '@')).reverse

/-- Split host from an optional port at the first colon. -/
def splitHostPort (cs : List Char) : List Char × Option (List Char) :=
  match takeUntilColon cs with
  | some (h, p) => (h, some p)
  | none => (cs, none)

/-- Code points WHATWG forbids in a (non-opaque) host. -/
def forbiddenHostChar (c : Char) : Bool :=
  c == '\x00' || c == ' ' || c == '#' || c == '/' || c == ':' || c == '<' ||
  c == '>' || c == '?' || c == '@' || c == '[' || c == '\\' || c == ']' ||
  c == '^' || c == '|'

/-- Drop leading and trailing C0-control-or-space characters, as WHATWG URL
preprocessing does. -/
def trimC0 (cs : List Char) : List Char :=
  ((cs.dropWhile (fun c => c.toNat ≤ 32)).reverse.dropWhile (fun c => c.toNat ≤ 32)).reverse

/-- Model of WHATWG `new URL(s)` (no base URL), restricted to the scheme and
host extraction the gateway reads. Not modelled: percent-decoding, IDNA and
IPv6 bracket hosts (such hosts fall out as parse failures). `none` models the
thrown `TypeError`. -/
def parseURL (s : String) : Option ParsedUrl :=
  let cs := trimC0 (s.toList.filter (fun c => !(['\t', '\n', '\r'].contains c)))
  match takeUntilColon cs with
  | none => none
  | some (schemeCs, rest) =>
    if validSchemeChars schemeCs then
      let scheme := String.mk (schemeCs.map Char.toLower)
      if isSpecialScheme scheme then
        let hostport := afterLastAt (takeAuthority (dropSlashes rest))
        let hp := splitHostPort hostport
        let portOk := match hp.2 with
          | none => true
          | some p => p.all isAsciiDigit
        if hp.1.isEmpty then
          if scheme = "file" && portOk then some ⟨scheme ++ ":", ""⟩ else none
        else if hp.1.any forbiddenHostChar || !portOk then none
        else some ⟨scheme ++ ":", String.mk (hp.1.map Char.toLower)⟩
      else
        match rest with
        | '/' :: '/' :: rest2 =>
          let hostport := afterLastAt (takeAuthority rest2)
          let hp := splitHostPort hostport
          let portOk := match hp.2 with
            | none => true
            | some p => p.all isAsciiDigit
          if hp.1.any forbiddenHostChar || !portOk then none
          else some ⟨scheme ++ ":", String.mk hp.1⟩
        | _ => some ⟨scheme ++ ":", ""⟩
    else none

/-! ## Remote URL Guard (src/index.js, assertAllowedRemoteUrl) -/

/-- The three guard failures. `invalidUrl` models the `TypeError` thrown by
`new URL` (message "Invalid URL" on Node); the other two carry the data
interpolated into the thrown `Error` messages. -/
inductive GuardError where
  | invalidUrl
  | disallowedScheme (urlString : String)
  | disallowedHost (host : String)
deriving DecidableEq, Repr

/-- The message of the JS error each guard failure throws. -/
def GuardError.message : GuardError → String
  | .invalidUrl => "Invalid URL"
  | .disallowedScheme u => "Only https URLs are allowed: " ++ u
  | .disallowedHost h => "Remote URL host not allowed: " ++ h

/-- `assertAllowedRemoteUrl` from src/index.js: parse the URL (a parse failure
throws), require protocol `https:`, lower-case the hostname and require it to
be `res.cloudinary.com` or to end with `.cloudinary.com`. -/
def assertAllowedRemoteUrl (urlString : String) : Except GuardError Unit :=
  match parseURL urlString with
  | none => Except.error GuardError.invalidUrl
  | some uri =>
    if uri.protocol = "https:" then
      if jsToLower uri.hostname == "res.cloudinary.com"
          || jsEndsWith (jsToLower uri.hostname) ".cloudinary.com" then
        Except.ok ()
      else
        Except.error (GuardError.disallowedHost (jsToLower uri.hostname))
    else
      Except.error (GuardError.disallowedScheme urlString)

/-! ## Base64 Normalizer (src/index.js, normalizeBase64) -/

/-- `normalizeBase64` from src/index.js: falsy input gives `null`; trim; a
string trimming to empty gives `null`; a trimmed string starting with `data:`
and containing a comma is cut after its first comma; otherwise the trimmed
string is returned. -/
def normalizeBase64 (b64 : Option String) : Option String :=
  match b64 with
  | none => none
  | some b =>
    if b = "" then none
    else if jsTrim b = "" then none
    else if ("data:".toList).isPrefixOf (jsTrim b).toList then
      match afterFirstComma (jsTrim b).toList with
      | some rest => some (String.mk rest)
      | none => some (jsTrim b)
    else some (jsTrim b)

/-- `asImageDataUri` from src/index.js. -/
def asImageDataUri (b64 : Option String) : Option String :=
  match normalizeBase64 b64 with
  | none => none
  | some raw => if raw = "" then none else some ("data:image/jpeg;base64," ++ raw)

/-! ## JSON model (`JSON.parse`, the parsed-or-raw wrapping of postJson) -/

/-- JSON values. Numbers keep their source lexeme (the gateway never computes
with them, it only relays). -/
inductive Json where
  | null
  | bool (b : Bool)
  | num (lexeme : String)
  | str (s : String)
  | arr (xs : List Json)
  | obj (fields : List (String × Json))
deriving Repr

/-- JSON insignificant whitespace. -/
def jsonWs (c : Char) : Bool :=
  [' ', '\t', '\n', '\r'].contains c

/-- Skip JSON whitespace. -/
def skipJsonWs (cs : List Char) : List Char :=
  cs.dropWhile jsonWs

/-- Hexadecimal digit value (via character codes: 0-9, a-f, A-F). -/
def hexDigitVal (c : Char) : Option Nat :=
  let n := c.toNat
  if 48 ≤ n && n ≤ 57 then some (n - 48)
  else if 97 ≤ n && n ≤ 102 then some (n - 87)
  else if 65 ≤ n && n ≤ 70 then some (n - 55)
  else none

/-- Parse the body of a JSON string literal (after the opening quote), fuelled;
returns the decoded characters and the input after the closing quote. -/
def parseJStringAux : Nat → List Char → Option (List Char × List Char)
  | 0, _ => none
  | _, [] => none
  | fuel + 1, c :: rest =>
    if c = '"' then some ([], rest)
    else if c = '\\' then
      match rest with
      | [] => none
      | e :: rest2 =>
        let cont : Char → List Char → Option (List Char × List Char) := fun ch rem =>
          match parseJStringAux fuel rem with
          | some (out, fin) => some (ch :: out, fin)
          | none => none
        if e = '"' then cont '"' rest2
        else if e = '\\' then cont '\\' rest2
        else if e = '/' then cont '/' rest2
        else if e = 'b' then cont '\x08' rest2
        else if e = 'f' then cont '\x0c' rest2
        else if e = 'n' then cont '\n' rest2
        else if e = 'r' then cont '\r' rest2
        else if e = 't' then cont '\t' rest2
        else if e = 'u' then
          match rest2 with
          | h1 :: h2 :: h3 :: h4 :: rest3 =>
            match hexDigitVal h1, hexDigitVal h2, hexDigitVal h3, hexDigitVal h4 with
            | some a, some b, some c2, some d =>
              cont (Char.ofNat (((a * 16 + b) * 16 + c2) * 16 + d)) rest3
            | _, _, _, _ => none
          | _ => none
        else none
    else if c.toNat < 32 then none
    else
      match parseJStringAux fuel rest with
      | some (out, fin) => some (c :: out, fin)
      | none => none

/-- Parse a JSON number, returning its lexeme and the remaining input. -/
def parseJNumber (cs : List Char) : Option (List Char × List Char) :=
  let signed : List Char × List Char :=
    match cs with
    | '-' :: r => (['-'], r)
    | _ => ([], cs)
  match signed.2 with
  | [] => none
  | c :: rest =>
    let intPart : Option (List Char × List Char) :=
      if c = '0' then some (['0'], rest)
      else if isAsciiDigit c then
        let dr := List.span isAsciiDigit rest
        some (c :: dr.1, dr.2)
      else none
    match intPart with
    | none => none
    | some (ip, afterInt) =>
      let fracPart : Option (List Char × List Char) :=
        match afterInt with
        | '.' :: r2 =>
          match List.span isAsciiDigit r2 with
          | ([], _) => none
          | (ds, r3) => some ('.' :: ds, r3)
        | _ => some ([], afterInt)
      match fracPart with
      | none => none
      | some (fp, afterFrac) =>
        match afterFrac with
        | e :: r4 =>
          if e = 'e' || e = 'E' then
            let se : List Char × List Char :=
              match r4 with
              | '+' :: r5 => (['+'], r5)
              | '-' :: r5 => (['-'], r5)
              | _ => ([], r4)
            match List.span isAsciiDigit se.2 with
            | ([], _) => none
            | (ds, r6) => some (signed.1 ++ ip ++ fp ++ e :: se.1 ++ ds, r6)
          else some (signed.1 ++ ip ++ fp, afterFrac)
        | [] => some (signed.1 ++ ip ++ fp, [])

mutual

/-- Parse a JSON value at the head of the input (no leading whitespace),
fuelled. -/
def parseJValue : Nat → List Char → Option (Json × List Char)
  | 0, _ => none
  | fuel + 1, cs =>
    match cs with
    | [] => none
    | c :: rest =>
      if c = 'n' then
        match rest with
        | 'u' :: 'l' :: 'l' :: r => some (Json.null, r)
        | _ => none
      else if c = 't' then
        match rest with
        | 'r' :: 'u' :: 'e' :: r => some (Json.bool true, r)
        | _ => none
      else if c = 'f' then
        match rest with
        | 'a' :: 'l' :: 's' :: 'e' :: r => some (Json.bool false, r)
        | _ => none
      else if c = '"' then
        match parseJStringAux (rest.length + 1) rest with
        | some (out, fin) => some (Json.str (String.mk out), fin)
        | none => none
      else if c = '[' then
        match skipJsonWs rest with
        | ']' :: r2 => some (Json.arr [], r2)
        | r1 =>
          match parseJItems fuel r1 with
          | some (xs, fin) => some (Json.arr xs, fin)
          | none => none
      else if c = '\x7b' then
        match skipJsonWs rest with
        | '\x7d' :: r2 => some (Json.obj [], r2)
        | r1 =>
          match parseJMembers fuel r1 with
          | some (fs, fin) => some (Json.obj fs, fin)
          | none => none
      else if c = '-' || isAsciiDigit c then
        match parseJNumber (c :: rest) with
        | some (lex, fin) => some (Json.num (String.mk lex), fin)
        | none => none
      else none

/-- Parse the comma-separated items of a JSON array up to `]`, fuelled. -/
def parseJItems : Nat → List Char → Option (List Json × List Char)
  | 0, _ => none
  | fuel + 1, cs =>
    match parseJValue fuel (skipJsonWs cs) with
    | none => none
    | some (v, rest) =>
      match skipJsonWs rest with
      | ',' :: r2 =>
        match parseJItems fuel r2 with
        | some (xs, fin) => some (v :: xs, fin)
        | none => none
      | ']' :: r2 => some ([v], r2)
      | _ => none

/-- Parse the comma-separated members of a JSON object up to the closing
brace, fuelled. -/
def parseJMembers : Nat → List Char → Option (List (String × Json) × List Char)
  | 0, _ => none
  | fuel + 1, cs =>
    match skipJsonWs cs with
    | '"' :: rest =>
      match parseJStringAux (rest.length + 1) rest with
      | none => none
      | some (key, r1) =>
        match skipJsonWs r1 with
        | ':' :: r2 =>
          match parseJValue fuel (skipJsonWs r2) with
          | none => none
          | some (v, r3) =>
            match skipJsonWs r3 with
            | ',' :: r4 =>
              match parseJMembers fuel r4 with
              | some (fs, fin) => some ((String.mk key, v) :: fs, fin)
              | none => none
            | '\x7d' :: r4 => some ([(String.mk key, v)], r4)
            | _ => none
        | _ => none
    | _ => none

end

/-- Model of `JSON.parse`: parse one value surrounded by whitespace; `none`
models the thrown `SyntaxError`. -/
def parseJson (s : String) : Option Json :=
  match parseJValue (s.toList.length + 1) (skipJsonWs s.toList) with
  | some (v, rest) => if (skipJsonWs rest).isEmpty then some v else none
  | none => none

/-- The parsed-or-raw body of postJson: `JSON.parse(text)`, or on parse
failure the wrapping `{ raw: text }` (src/index.js lines 116-121). -/
def parsedOrRaw (text : String) : Json :=
  match parseJson text with
  | some v => v
  | none => Json.obj [("raw", Json.str text)]

/-! ## Base64 encoding (`Buffer.from(arrayBuffer).toString('base64')`) -/

/-- The base64 alphabet. -/
def b64Digit (n : Nat) : Char :=
  "ABCDEFGHIJKLMNOPQRSTUVWXYZabcdefghijklmnopqrstuvwxyz0123456789+/".toList.getD n 'A'

/-- Base64-encode a byte list, three bytes at a time, padding with `=`. -/
def base64Chunks : List Nat → List Char
  | [] => []
  | [a] =>
    [b64Digit (a % 256 / 4), b64Digit (a % 4 * 16), '=', '=']
  | [a, b] =>
    [b64Digit (a % 256 / 4), b64Digit (a % 4 * 16 + b % 256 / 16),
     b64Digit (b % 16 * 4), '=']
  | a :: b :: c :: rest =>
    b64Digit (a % 256 / 4) :: b64Digit (a % 4 * 16 + b % 256 / 16) ::
    b64Digit (b % 16 * 4 + c % 256 / 64) :: b64Digit (c % 64) ::
    base64Chunks rest

/-- Model of `Buffer.from(arrayBuffer).toString('base64')` on the response
bytes. -/
def base64Encode (bytes : List Nat) : String :=
  String.mk (base64Chunks bytes)

/-! ## Network model

Each of the two network calls is modelled by an explicit outcome argument:
either an HTTP response (any status) or a thrown JS error. The abort signal
firing on timeout surfaces as a thrown error whose `name` is `AbortError`,
which is exactly what the two catch blocks test for. -/

/-- An HTTP response as the gateway reads it: `status`, the body as text
(`resp.text()`), and the body as bytes (`resp.arrayBuffer()`). -/
structure HttpResp where
  status : Nat
  text : String
  bytes : List Nat
deriving Repr

/-- A thrown JS error: its `name` and `message`. -/
structure JsErr where
  name : String
  msg : String
deriving Repr

/-- Outcome of one `fetch` call: a response, or a thrown error (timeout abort,
DNS failure, connection refused, ...). -/
inductive NetOutcome where
  | resp (r : HttpResp)
  | err (e : JsErr)
deriving Repr

/-- `resp.ok`: status in the 2xx range. -/
def respOk (r : HttpResp) : Bool :=
  decide (200 ≤ r.status ∧ r.status ≤ 299)

/-- The catch blocks' test `String(e?.name || '').toLowerCase().includes('abort')`. -/
def nameIncludesAbort (name : String) : Bool :=
  jsIncludes (jsToLower name) "abort"

/-- The download timeout from src/index.js lines 58-59:
`Number.parseInt(process.env.HTTP_DOWNLOAD_TIMEOUT_MS || '45000', 10)` with a
fallback to 45000 when the result is not finite (`NaN`). -/
def resolveDownloadTimeoutMs (env : Option String) : Int :=
  match parseIntBase10 (match env with
    | none => "45000"
    | some s => if s = "" then "45000" else s) with
  | some n => n
  | none => 45000

/-- The upstream dispatch timeout from src/index.js lines 100-101 (default
60000, env `KYC_ENGINE_TIMEOUT_MS`). -/
def resolveEngineTimeoutMs (env : Option String) : Int :=
  match parseIntBase10 (match env with
    | none => "60000"
    | some s => if s = "" then "60000" else s) with
  | some n => n
  | none => 60000

/-! ## Remote Image Fetcher (src/index.js, downloadRemoteImageAsBase64) -/

/-- `downloadRemoteImageAsBase64` from src/index.js, instrumented: the second
component records whether `fetchFn` was invoked. The URL is normalised and the
guard runs before the try block, so their throws propagate unwrapped and no
fetch happens. Inside the try block: an abort-named error becomes the
`Timed out ...` error; the non-2xx branch throws `HTTP <status> while
downloading ...`, which the same catch re-catches and wraps into
`Could not download ...: HTTP ...`; any other thrown error is wrapped into
`Could not download ...` directly; a 2xx response yields the base64 body. -/
def downloadRemoteImageAsBase64 (net : NetOutcome) (urlString label : String) :
    Except String String × Bool :=
  match normalizeRemoteUrl (some urlString) with
  | none => (Except.error ("Missing " ++ label ++ " URL"), false)
  | some normalized =>
    match assertAllowedRemoteUrl normalized with
    | Except.error e => (Except.error e.message, false)
    | Except.ok _ =>
      match net with
      | NetOutcome.err e =>
        if nameIncludesAbort e.name then
          (Except.error ("Timed out downloading " ++ label ++ " from " ++ normalized), true)
        else
          (Except.error ("Could not download " ++ label ++ " from " ++ normalized
            ++ ": " ++ e.msg), true)
      | NetOutcome.resp r =>
        if respOk r then
          (Except.ok (base64Encode r.bytes), true)
        else
          (Except.error ("Could not download " ++ label ++ " from " ++ normalized
            ++ ": HTTP " ++ toString r.status ++ " while downloading " ++ label
            ++ ": " ++ r.text), true)

/-! ## Upstream Dispatcher (src/index.js, postJson) -/

/-- The result postJson resolves with: `{ ok, status, data }`. -/
structure PostResult where
  ok : Bool
  status : Nat
  data : Json
deriving Repr

/-- `postJson` from src/index.js: when the POST resolves, read the body text
and return status plus parsed-or-raw body — never failing on a non-2xx status
or a non-JSON body; when it throws, translate an abort-named error into the
engine-timeout error and anything else into the engine-fetch-failed error.
`body` is the JSON payload that the source serialises into the request; it
does not influence the modelled result. -/
def postJson (engEnv : Option String) (net : NetOutcome) (url : String)
    (body : Json) : Except String PostResult :=
  match net with
  | NetOutcome.err e =>
    if nameIncludesAbort e.name then
      Except.error ("KYC engine timed out after "
        ++ toString (resolveEngineTimeoutMs engEnv) ++ "ms for " ++ url)
    else
      Except.error ("KYC engine fetch failed for " ++ url ++ ": " ++ e.msg)
  | NetOutcome.resp r => Except.ok ⟨respOk r, r.status, parsedOrRaw r.text⟩

/-! ## Request handlers (src/index.js, app.post routes) -/

/-- `kycBaseUrl` from src/index.js: trim `KYC_API_URL`, drop one trailing
slash, throw when empty. -/
def kycBaseUrl (env : Option String) : Except String String :=
  match (match jsTrim (match env with | none => "" | some s => s) |>.toList.reverse with
    | '/' :: rest => String.mk rest.reverse
    | cs => String.mk cs.reverse) with
  | base =>
    if base = "" then
      Except.error "KYC_API_URL is required (example: http://127.0.0.1:7860 or https://xxxx.hf.space)"
    else Except.ok base

/-- The response body a handler sends: either `{ error: msg }` or the relayed
upstream data. -/
inductive ResBody where
  | errJson (msg : String)
  | relay (data : Json)
deriving Repr

/-- A handler's `res.status(...).json(...)`. -/
structure GatewayResponse where
  status : Nat
  body : ResBody
deriving Repr

/-- A handler run, instrumented: the response sent, whether a remote-image GET
was issued, and whether the upstream POST was issued. -/
structure HandlerOutcome where
  response : GatewayResponse
  fetched : Bool
  dispatched : Bool
deriving Repr

/-- JSON encoding of a nullable string field of the upstream payload. -/
def jsonOfOptStr : Option String → Json
  | some s => Json.str s
  | none => Json.null

/-- The image-slot resolution shared by the single-image handlers
(src/index.js lines 151-156, 213-218): keep a truthy inline image; otherwise,
when a truthy URL is present, download and normalise its body. The `Bool`
records whether the download fetch was issued. -/
def resolveImageSlot (net : NetOutcome) (image0 imageUrl : Option String)
    (label : String) : Except String (Option String) × Bool :=
  if isTruthy image0 || !(isTruthy imageUrl) then (Except.ok image0, false)
  else
    match downloadRemoteImageAsBase64 net (imageUrl.getD "") label with
    | (Except.ok b, f) => (Except.ok (normalizeBase64 (some b)), f)
    | (Except.error m, f) => (Except.error m, f)

/-- The shared tail of the single-image handlers: a thrown resolution error is
caught and sent as 500; a falsy resolved image is sent as the fixed 400; then
the base URL is read (throw caught as 500) and the payload dispatched, the
upstream response being relayed and any dispatch throw caught as 500. -/
def finishHandler (up : NetOutcome) (engEnv kycEnv : Option String)
    (path missingMsg : String) (slot : Except String (Option String) × Bool) :
    HandlerOutcome :=
  match slot with
  | (Except.error m, f) => ⟨⟨500, ResBody.errJson m⟩, f, false⟩
  | (Except.ok image, f) =>
    if isTruthy image then
      match kycBaseUrl kycEnv with
      | Except.error m => ⟨⟨500, ResBody.errJson m⟩, f, false⟩
      | Except.ok base =>
        match postJson engEnv up (base ++ path)
          (Json.obj [("image", Json.str (image.getD "")),
                     ("imageDataUri", jsonOfOptStr (asImageDataUri image))]) with
        | Except.error m => ⟨⟨500, ResBody.errJson m⟩, f, true⟩
        | Except.ok r => ⟨⟨r.status, ResBody.relay r.data⟩, f, true⟩
    else ⟨⟨400, ResBody.errJson missingMsg⟩, f, false⟩

/-- The request body of POST /verify-cnic, restricted to the fields the
handler reads. -/
structure CnicInput where
  image : Option String := none
  cnicFrontBase64 : Option String := none
  cnicFrontImageBase64 : Option String := none
  cnicFrontUrl : Option String := none
  imageUrl : Option String := none
  cnicImageUrl : Option String := none
deriving Repr

/-- The 400 message of POST /verify-cnic. -/
def cnicMissingMsg : String :=
  "Missing CNIC image. Provide \"image\" (base64) or \"cnicFrontUrl\" (Cloudinary https URL)."

/-- Image resolution of POST /verify-cnic (src/index.js lines 151-156). -/
def resolveCnicImage (dl : NetOutcome) (input : CnicInput) :
    Except String (Option String) × Bool :=
  resolveImageSlot dl
    (normalizeBase64 (jsOr input.image (jsOr input.cnicFrontBase64 input.cnicFrontImageBase64)))
    (jsOrNull (jsOr input.cnicFrontUrl (jsOr input.imageUrl input.cnicImageUrl)))
    "CNIC image"

/-- The POST /verify-cnic handler (src/index.js lines 147-171). -/
def verifyCnicHandler (dl up : NetOutcome) (engEnv kycEnv : Option String)
    (input : CnicInput) : HandlerOutcome :=
  finishHandler up engEnv kycEnv "/verify-cnic" cnicMissingMsg (resolveCnicImage dl input)

/-- The request body of POST /shop-verify, restricted to the fields the
handler reads. -/
structure ShopInput where
  image : Option String := none
  shopImage : Option String := none
  shopImageBase64 : Option String := none
  shopImageUrl : Option String := none
  imageUrl : Option String := none
deriving Repr

/-- The 400 message of POST /shop-verify. -/
def shopMissingMsg : String :=
  "Missing shop image. Provide \"image\" (base64) or \"shopImageUrl\" (Cloudinary https URL)."

/-- Image resolution of POST /shop-verify (src/index.js lines 213-218). -/
def resolveShopImage (dl : NetOutcome) (input : ShopInput) :
    Except String (Option String) × Bool :=
  resolveImageSlot dl
    (normalizeBase64 (jsOr input.image (jsOr input.shopImage input.shopImageBase64)))
    (jsOrNull (jsOr input.shopImageUrl input.imageUrl))
    "shop image"

/-- The POST /shop-verify handler (src/index.js lines 209-235). -/
def shopVerifyHandler (dl up : NetOutcome) (engEnv kycEnv : Option String)
    (input : ShopInput) : HandlerOutcome :=
  finishHandler up engEnv kycEnv "/shop-verify" shopMissingMsg (resolveShopImage dl input)

/-! ## Helper lemmas -/

/-- A value surviving the trailing `|| null` is a non-empty string. -/
theorem jsOrNull_ne_empty {a : Option String} {u : String}
    (h : jsOrNull a = some u) : u ≠ "" := by
  cases a with
  | none => simp [jsOrNull] at h
  | some s =>
    by_cases hs : s = ""
    · simp [jsOrNull, hs] at h
    · simp only [jsOrNull, if_neg hs, Option.some.injEq] at h
      exact h ▸ hs

/-- Truthiness of a non-empty string. -/
theorem isTruthy_some_of_ne {u : String} (h : u ≠ "") :
    isTruthy (some u) = true := by
  simp [isTruthy, h]

/-- The first allow-list disjunct is subsumed by the suffix test: a host that
fails the suffix test is in particular not `res.cloudinary.com`. -/
theorem beq_res_false_of_not_endsWith (h : String)
    (hend : jsEndsWith h ".cloudinary.com" = false) :
    (h == "res.cloudinary.com") = false := by
  by_cases hq : h = "res.cloudinary.com"
  · subst hq; exact absurd hend (by decide)
  · simp [hq]

/-! ## Claims -/

/-- C4: `normalizeBase64` returns `null` exactly when its input is `null` or
trims to the empty string; when the (trimmed) input begins with the data-URI
prefix `data:` and contains a comma, it returns the part after the first
comma; every other non-empty input comes back trimmed, unchanged. -/
theorem c4_normalizeBase64_spec (b : Option String) :
    (normalizeBase64 b = none ↔ b = none ∨ ∃ s, b = some s ∧ jsTrim s = "") ∧
    (∀ s r, b = some s → jsTrim s ≠ "" →
      ("data:".toList).isPrefixOf (jsTrim s).toList = true →
      afterFirstComma (jsTrim s).toList = some r →
      normalizeBase64 b = some (String.mk r)) ∧
    (∀ s, b = some s → jsTrim s ≠ "" →
      (("data:".toList).isPrefixOf (jsTrim s).toList = false ∨
        afterFirstComma (jsTrim s).toList = none) →
      normalizeBase64 b = some (jsTrim s)) := by
  refine ⟨?_, ?_, ?_⟩
  · cases b with
    | none => simp [normalizeBase64]
    | some s =>
      by_cases hs : s = ""
      · subst hs
        exact ⟨fun _ => Or.inr ⟨"", rfl, rfl⟩, fun _ => rfl⟩
      · by_cases ht : jsTrim s = ""
        · constructor
          · intro _; exact Or.inr ⟨s, rfl, ht⟩
          · intro _; simp [normalizeBase64, hs, ht]
        · simp only [normalizeBase64, if_neg hs, if_neg ht]
          constructor
          · intro hcontra
            split at hcontra
            · split at hcontra <;> simp_all
            · simp_all
          · rintro (h | ⟨s', hs', ht'⟩)
            · simp at h
            · rw [Option.some.injEq] at hs'
              exact absurd (hs' ▸ ht') ht
  · intro s r hb ht hpre hcomma
    subst hb
    have hs : s ≠ "" := fun h => ht (by simp [h, jsTrim])
    simp only [normalizeBase64, if_neg hs, if_neg ht, hpre, hcomma]
    rfl
  · intro s hb ht hcase
    subst hb
    have hs : s ≠ "" := fun h => ht (by simp [h, jsTrim])
    rcases hcase with hpre | hcomma
    · simp only [normalizeBase64, if_neg hs, if_neg ht, hpre]
      rfl
    · simp only [normalizeBase64, if_neg hs, if_neg ht, hcomma]
      split <;> rfl

/-- C4 witness: the three branches at concrete inputs. -/
theorem c4_witness :
    jsTrim " data:image/png;base64,QUJD" ≠ "" ∧
    normalizeBase64 (some " data:image/png;base64,QUJD") = some "QUJD" ∧
    normalizeBase64 (some "  iVBORw0KGgo=  ") = some "iVBORw0KGgo=" ∧
    normalizeBase64 (some "   ") = none := by
  refine ⟨by decide, ?_, ?_, ?_⟩
  · exact (c4_normalizeBase64_spec (some " data:image/png;base64,QUJD")).2.1
      " data:image/png;base64,QUJD" "QUJD".toList rfl (by decide) (by decide) rfl
  · exact (c4_normalizeBase64_spec (some "  iVBORw0KGgo=  ")).2.2
      "  iVBORw0KGgo=  " rfl (by decide) (Or.inl (by decide))
  · exact (c4_normalizeBase64_spec (some "   ")).1.mpr (Or.inr ⟨"   ", rfl, rfl⟩)

/-- C10: a non-empty input whose trimmed form begins with `data:` but has no
comma passes through trimmed and unchanged — the stripping branch fires only
when a comma is present. -/
theorem c10_data_prefix_without_comma (s : String)
    (h1 : jsTrim s ≠ "")
    (h2 : ("data:".toList).isPrefixOf (jsTrim s).toList = true)
    (h3 : afterFirstComma (jsTrim s).toList = none) :
    normalizeBase64 (some s) = some (jsTrim s) := by
  have hs : s ≠ "" := fun h => h1 (by simp [h, jsTrim])
  simp only [normalizeBase64, if_neg hs, if_neg h1, h2, h3]
  rfl

/-- C10 witness at the concrete input `data:image/png;base64AAAA`. -/
theorem c10_witness :
    jsTrim "data:image/png;base64AAAA" ≠ "" ∧
    ("data:".toList).isPrefixOf (jsTrim "data:image/png;base64AAAA").toList = true ∧
    afterFirstComma (jsTrim "data:image/png;base64AAAA").toList = none ∧
    normalizeBase64 (some "data:image/png;base64AAAA") = some "data:image/png;base64AAAA" := by
  refine ⟨by decide, by decide, by decide, ?_⟩
  exact c10_data_prefix_without_comma "data:image/png;base64AAAA"
    (by decide) (by decide) (by decide)

/-- C2: for every URL string whose normalised form the allow-list guard
rejects, `downloadRemoteImageAsBase64` fails with the guard's error and the
network fetch flag stays `false`, whatever the network would have answered:
the guard runs before the HTTP GET on every path. -/
theorem c2_guard_before_fetch (url label n : String) (e : GuardError)
    (h1 : normalizeRemoteUrl (some url) = some n)
    (h2 : assertAllowedRemoteUrl n = Except.error e) (net : NetOutcome) :
    downloadRemoteImageAsBase64 net url label = (Except.error e.message, false) := by
  simp [downloadRemoteImageAsBase64, h1, h2]

/-- C2 witness: the non-https URL of spec scenario 3, against a network that
would answer 200 — the fetch flag is still false. -/
theorem c2_witness :
    normalizeRemoteUrl (some "http://res.cloudinary.com/x.jpg") =
      some "http://res.cloudinary.com/x.jpg" ∧
    assertAllowedRemoteUrl "http://res.cloudinary.com/x.jpg" =
      Except.error (GuardError.disallowedScheme "http://res.cloudinary.com/x.jpg") ∧
    downloadRemoteImageAsBase64 (NetOutcome.resp ⟨200, "", [1, 2, 3]⟩)
      "http://res.cloudinary.com/x.jpg" "CNIC image" =
      (Except.error "Only https URLs are allowed: http://res.cloudinary.com/x.jpg", false) := by
  refine ⟨rfl, rfl, ?_⟩
  exact c2_guard_before_fetch "http://res.cloudinary.com/x.jpg" "CNIC image"
    "http://res.cloudinary.com/x.jpg"
    (GuardError.disallowedScheme "http://res.cloudinary.com/x.jpg") rfl rfl
    (NetOutcome.resp ⟨200, "", [1, 2, 3]⟩)

/-- C6: when the upstream body text is not valid JSON, `postJson` still
succeeds, wrapping the raw text as `{ raw: text }`. -/
theorem c6_nonjson_wrapped (engEnv : Option String) (url : String) (body : Json)
    (r : HttpResp) (h : parseJson r.text = none) :
    postJson engEnv (NetOutcome.resp r) url body =
      Except.ok ⟨respOk r, r.status, Json.obj [("raw", Json.str r.text)]⟩ := by
  simp [postJson, parsedOrRaw, h]

/-- C6 witness: an upstream answering the text `not json` yields
`{ raw: "not json" }`. -/
theorem c6_witness :
    parseJson "not json" = none ∧
    postJson none (NetOutcome.resp ⟨200, "not json", []⟩) "http://e/verify-cnic"
      (Json.obj []) =
      Except.ok ⟨true, 200, Json.obj [("raw", Json.str "not json")]⟩ := by
  refine ⟨rfl, ?_⟩
  exact c6_nonjson_wrapped none "http://e/verify-cnic" (Json.obj [])
    ⟨200, "not json", []⟩ rfl

/-- C1 counterexample: `https://cloudinary.com/x.jpg` parses as an https URL
whose hostname is, case-insensitively, exactly the trusted domain
`cloudinary.com` — yet the guard raises `DisallowedHost` on it, so the guard
does not succeed on every https URL whose hostname is the trusted domain or a
subdomain of it. -/
theorem c1_counterexample :
    parseURL "https://cloudinary.com/x.jpg" = some ⟨"https:", "cloudinary.com"⟩ ∧
    jsToLower "cloudinary.com" = "cloudinary.com" ∧
    assertAllowedRemoteUrl "https://cloudinary.com/x.jpg" =
      Except.error (GuardError.disallowedHost "cloudinary.com") :=
  ⟨rfl, rfl, rfl⟩

/-- C1 (amended): the guard fails with `InvalidUrl` on every string that does
not parse, with `DisallowedScheme` on every parsed URL whose scheme is not
https, and on https URLs it succeeds exactly when the lowercased hostname ends
with `.cloudinary.com` (a strict subdomain of the trusted suffix domain),
failing with `DisallowedHost` otherwise — in particular on the bare apex
domain. -/
theorem c1_guard_characterization (s : String) :
    (parseURL s = none → assertAllowedRemoteUrl s = Except.error GuardError.invalidUrl) ∧
    (∀ u, parseURL s = some u → u.protocol ≠ "https:" →
      assertAllowedRemoteUrl s = Except.error (GuardError.disallowedScheme s)) ∧
    (∀ u, parseURL s = some u → u.protocol = "https:" →
      jsEndsWith (jsToLower u.hostname) ".cloudinary.com" = true →
      assertAllowedRemoteUrl s = Except.ok ()) ∧
    (∀ u, parseURL s = some u → u.protocol = "https:" →
      jsEndsWith (jsToLower u.hostname) ".cloudinary.com" = false →
      assertAllowedRemoteUrl s =
        Except.error (GuardError.disallowedHost (jsToLower u.hostname))) := by
  refine ⟨?_, ?_, ?_, ?_⟩
  · intro h
    simp [assertAllowedRemoteUrl, h]
  · intro u hp hproto
    simp [assertAllowedRemoteUrl, hp, hproto]
  · intro u hp hproto hend
    simp only [assertAllowedRemoteUrl, hp, if_pos hproto, hend, Bool.or_true]
    rfl
  · intro u hp hproto hend
    have ha := beq_res_false_of_not_endsWith (jsToLower u.hostname) hend
    simp only [assertAllowedRemoteUrl, hp, if_pos hproto, hend, ha, Bool.or_self]
    rfl

/-- C1 witness: the characterization applied at a rejected http URL and at an
accepted https subdomain URL. -/
theorem c1_witness :
    assertAllowedRemoteUrl "http://res.cloudinary.com/x.jpg" =
      Except.error (GuardError.disallowedScheme "http://res.cloudinary.com/x.jpg") ∧
    assertAllowedRemoteUrl "https://res.cloudinary.com/x.jpg" = Except.ok () :=
  ⟨(c1_guard_characterization "http://res.cloudinary.com/x.jpg").2.1
      ⟨"http:", "res.cloudinary.com"⟩ rfl (by decide),
   (c1_guard_characterization "https://res.cloudinary.com/x.jpg").2.2.1
      ⟨"https:", "res.cloudinary.com"⟩ rfl rfl (by decide)⟩

/-- C9: for parsed https URLs the guard's accepted host set is exactly
\x7bres.cloudinary.com\x7d together with the hosts ending in
`.cloudinary.com`, and the bare apex domain `cloudinary.com` is rejected with
`DisallowedHost` even though it is the suffix the allow-list matches
against. -/
theorem c9_host_allowset :
    (∀ s u, parseURL s = some u → u.protocol = "https:" →
      (assertAllowedRemoteUrl s = Except.ok () ↔
        (jsToLower u.hostname = "res.cloudinary.com" ∨
         jsEndsWith (jsToLower u.hostname) ".cloudinary.com" = true))) ∧
    assertAllowedRemoteUrl "https://cloudinary.com/x.jpg" =
      Except.error (GuardError.disallowedHost "cloudinary.com") := by
  constructor
  · intro s u hp hproto
    simp only [assertAllowedRemoteUrl, hp, if_pos hproto]
    rcases hcond : (jsToLower u.hostname == "res.cloudinary.com"
        || jsEndsWith (jsToLower u.hostname) ".cloudinary.com") with _ | _
    · rw [Bool.or_eq_false_iff] at hcond
      simp [hcond.1, hcond.2]
      exact fun h => absurd (h ▸ hcond.2) (by decide)
    · rw [Bool.or_eq_true] at hcond
      simp only [if_true]
      constructor
      · intro _
        rcases hcond with h | h
        · exact Or.inl (by simpa using h)
        · exact Or.inr h
      · intro _; trivial
  · rfl

/-- C9 witness: the characterization applied at an accepted URL. -/
theorem c9_witness :
    assertAllowedRemoteUrl "https://res.cloudinary.com/a.jpg" = Except.ok () :=
  (c9_host_allowset.1 "https://res.cloudinary.com/a.jpg"
    ⟨"https:", "res.cloudinary.com"⟩ rfl rfl).mpr (Or.inl rfl)

/-- C3 counterexample: the request of spec scenario 3 — a non-https remote
URL, a pure allow-list violation — is answered with status 500, not with a
400-class status. -/
theorem c3_counterexample :
    (verifyCnicHandler (NetOutcome.resp ⟨200, "", []⟩) (NetOutcome.resp ⟨200, "", []⟩)
      none (some "http://127.0.0.1:7860")
      { cnicFrontUrl := some "http://res.cloudinary.com/x.jpg" }).response =
      ⟨500, ResBody.errJson "Only https URLs are allowed: http://res.cloudinary.com/x.jpg"⟩ ∧
    ¬(400 ≤ (verifyCnicHandler (NetOutcome.resp ⟨200, "", []⟩) (NetOutcome.resp ⟨200, "", []⟩)
      none (some "http://127.0.0.1:7860")
      { cnicFrontUrl := some "http://res.cloudinary.com/x.jpg" }).response.status ∧
      (verifyCnicHandler (NetOutcome.resp ⟨200, "", []⟩) (NetOutcome.resp ⟨200, "", []⟩)
      none (some "http://127.0.0.1:7860")
      { cnicFrontUrl := some "http://res.cloudinary.com/x.jpg" }).response.status ≤ 499) :=
  ⟨rfl, by decide⟩

/-- C3 (amended): every allow-list violation on the remote-URL path of
POST /verify-cnic — a guard failure (`InvalidUrl`, `DisallowedScheme`,
`DisallowedHost`) or a URL normalising to nothing (`MissingUrl`) — surfaces as
a 500 response carrying the violation's message, with no fetch and no
dispatch; only the missing-image resolution produces the 400 response. -/
theorem c3_allowlist_violation_500 :
    (∀ dl up engEnv kycEnv (input : CnicInput) u n e,
      isTruthy (normalizeBase64 (jsOr input.image
        (jsOr input.cnicFrontBase64 input.cnicFrontImageBase64))) = false →
      jsOrNull (jsOr input.cnicFrontUrl (jsOr input.imageUrl input.cnicImageUrl)) = some u →
      normalizeRemoteUrl (some u) = some n →
      assertAllowedRemoteUrl n = Except.error e →
      verifyCnicHandler dl up engEnv kycEnv input =
        ⟨⟨500, ResBody.errJson e.message⟩, false, false⟩) ∧
    (∀ dl up engEnv kycEnv (input : CnicInput) u,
      isTruthy (normalizeBase64 (jsOr input.image
        (jsOr input.cnicFrontBase64 input.cnicFrontImageBase64))) = false →
      jsOrNull (jsOr input.cnicFrontUrl (jsOr input.imageUrl input.cnicImageUrl)) = some u →
      normalizeRemoteUrl (some u) = none →
      verifyCnicHandler dl up engEnv kycEnv input =
        ⟨⟨500, ResBody.errJson "Missing CNIC image URL"⟩, false, false⟩) := by
  constructor
  · intro dl up engEnv kycEnv input u n e h1 h2 h3 h4
    have hu : u ≠ "" := jsOrNull_ne_empty h2
    simp [verifyCnicHandler, resolveCnicImage, resolveImageSlot, h1, h2,
      isTruthy_some_of_ne hu, downloadRemoteImageAsBase64, h3, h4, finishHandler]
  · intro dl up engEnv kycEnv input u h1 h2 h3
    have hu : u ≠ "" := jsOrNull_ne_empty h2
    simp [verifyCnicHandler, resolveCnicImage, resolveImageSlot, h1, h2,
      isTruthy_some_of_ne hu, downloadRemoteImageAsBase64, h3, finishHandler]

/-- C3 witness: the amended statement applied at the scenario-3 request. -/
theorem c3_witness :
    assertAllowedRemoteUrl "http://res.cloudinary.com/x.jpg" =
      Except.error (GuardError.disallowedScheme "http://res.cloudinary.com/x.jpg") ∧
    verifyCnicHandler (NetOutcome.resp ⟨200, "", []⟩) (NetOutcome.resp ⟨200, "", []⟩)
      none (some "http://127.0.0.1:7860")
      { cnicFrontUrl := some "http://res.cloudinary.com/x.jpg" } =
      ⟨⟨500, ResBody.errJson "Only https URLs are allowed: http://res.cloudinary.com/x.jpg"⟩,
        false, false⟩ := by
  refine ⟨rfl, ?_⟩
  exact c3_allowlist_violation_500.1 (NetOutcome.resp ⟨200, "", []⟩)
    (NetOutcome.resp ⟨200, "", []⟩) none (some "http://127.0.0.1:7860")
    { cnicFrontUrl := some "http://res.cloudinary.com/x.jpg" }
    "http://res.cloudinary.com/x.jpg" "http://res.cloudinary.com/x.jpg"
    (GuardError.disallowedScheme "http://res.cloudinary.com/x.jpg") rfl rfl rfl rfl

/-- C5: whenever the upstream dispatch itself completes with a response —
whatever its status code — the gateway relays that status code and the
parsed-or-raw body unchanged. -/
theorem c5_upstream_relayed (dl : NetOutcome) (r : HttpResp)
    (engEnv kycEnv : Option String) (base : String) (input : CnicInput)
    (img : Option String) (f : Bool)
    (hres : resolveCnicImage dl input = (Except.ok img, f))
    (htruthy : isTruthy img = true)
    (hbase : kycBaseUrl kycEnv = Except.ok base) :
    verifyCnicHandler dl (NetOutcome.resp r) engEnv kycEnv input =
      ⟨⟨r.status, ResBody.relay (parsedOrRaw r.text)⟩, f, true⟩ := by
  simp [verifyCnicHandler, finishHandler, hres, htruthy, hbase, postJson]

/-- C5 witness: an upstream 404 with a non-JSON body is relayed as a 404 with
the wrapped body. -/
theorem c5_witness :
    resolveCnicImage (NetOutcome.resp ⟨200, "", []⟩) { image := some "abc" } =
      (Except.ok (some "abc"), false) ∧
    isTruthy (some "abc") = true ∧
    kycBaseUrl (some "http://e") = Except.ok "http://e" ∧
    verifyCnicHandler (NetOutcome.resp ⟨200, "", []⟩) (NetOutcome.resp ⟨404, "not json", []⟩)
      none (some "http://e") { image := some "abc" } =
      ⟨⟨404, ResBody.relay (Json.obj [("raw", Json.str "not json")])⟩, false, true⟩ := by
  refine ⟨rfl, rfl, rfl, ?_⟩
  exact c5_upstream_relayed (NetOutcome.resp ⟨200, "", []⟩) ⟨404, "not json", []⟩
    none (some "http://e") "http://e" { image := some "abc" } (some "abc") false
    rfl rfl rfl

/-- C7: when the required image slot resolves (without a thrown error) to a
falsy image, the shop-verify and verify-cnic handlers answer 400 with their
fixed missing-image message and never dispatch upstream; in particular the
empty request body to /shop-verify gets the 400, and both messages mention the
missing image. -/
theorem c7_missing_image_400 :
    (∀ dl up engEnv kycEnv (input : ShopInput) img f,
      resolveShopImage dl input = (Except.ok img, f) →
      isTruthy img = false →
      shopVerifyHandler dl up engEnv kycEnv input =
        ⟨⟨400, ResBody.errJson shopMissingMsg⟩, f, false⟩) ∧
    (∀ dl up engEnv kycEnv (input : CnicInput) img f,
      resolveCnicImage dl input = (Except.ok img, f) →
      isTruthy img = false →
      verifyCnicHandler dl up engEnv kycEnv input =
        ⟨⟨400, ResBody.errJson cnicMissingMsg⟩, f, false⟩) ∧
    (∀ dl up engEnv kycEnv,
      shopVerifyHandler dl up engEnv kycEnv {} =
        ⟨⟨400, ResBody.errJson shopMissingMsg⟩, false, false⟩) ∧
    jsIncludes shopMissingMsg "Missing shop image" = true ∧
    jsIncludes cnicMissingMsg "Missing CNIC image" = true := by
  refine ⟨?_, ?_, ?_, by decide, by decide⟩
  · intro dl up engEnv kycEnv input img f hres htruthy
    simp [shopVerifyHandler, finishHandler, hres, htruthy]
  · intro dl up engEnv kycEnv input img f hres htruthy
    simp [verifyCnicHandler, finishHandler, hres, htruthy]
  · intro dl up engEnv kycEnv
    rfl

/-- C7 witness: the empty request body against /shop-verify. -/
theorem c7_witness :
    resolveShopImage (NetOutcome.resp ⟨200, "", []⟩) {} = (Except.ok none, false) ∧
    isTruthy none = false ∧
    shopVerifyHandler (NetOutcome.resp ⟨200, "", []⟩) (NetOutcome.resp ⟨200, "", []⟩)
      none none {} = ⟨⟨400, ResBody.errJson shopMissingMsg⟩, false, false⟩ := by
  refine ⟨rfl, rfl, ?_⟩
  exact c7_missing_image_400.1 (NetOutcome.resp ⟨200, "", []⟩)
    (NetOutcome.resp ⟨200, "", []⟩) none none {} none false rfl rfl

/-- C8: the download timeout defaults to 45000 ms and is overridden by the
environment setting; the abort signal firing (the timeout cancelling the
in-flight request, modelled as the fetch throwing an abort-named error) makes
the fetch fail with the `Timed out` error naming the URL; the handler surfaces
it as a 500 whose message starts with `Timed out`. -/
theorem c8_download_timeout :
    resolveDownloadTimeoutMs none = 45000 ∧
    resolveDownloadTimeoutMs (some "") = 45000 ∧
    (∀ s n, s ≠ "" → parseIntBase10 s = some n →
      resolveDownloadTimeoutMs (some s) = n) ∧
    (∀ url label n (e : JsErr),
      normalizeRemoteUrl (some url) = some n →
      assertAllowedRemoteUrl n = Except.ok () →
      nameIncludesAbort e.name = true →
      downloadRemoteImageAsBase64 (NetOutcome.err e) url label =
        (Except.error ("Timed out downloading " ++ label ++ " from " ++ n), true)) ∧
    (∀ up engEnv kycEnv (input : CnicInput) u n (e : JsErr),
      isTruthy (normalizeBase64 (jsOr input.image
        (jsOr input.cnicFrontBase64 input.cnicFrontImageBase64))) = false →
      jsOrNull (jsOr input.cnicFrontUrl (jsOr input.imageUrl input.cnicImageUrl)) = some u →
      normalizeRemoteUrl (some u) = some n →
      assertAllowedRemoteUrl n = Except.ok () →
      nameIncludesAbort e.name = true →
      verifyCnicHandler (NetOutcome.err e) up engEnv kycEnv input =
        ⟨⟨500, ResBody.errJson ("Timed out downloading CNIC image from " ++ n)⟩,
          true, false⟩) ∧
    (∀ n0 : String, ∃ rest,
      "Timed out downloading CNIC image from " ++ n0 = "Timed out" ++ rest) := by
  refine ⟨rfl, rfl, ?_, ?_, ?_, ?_⟩
  · intro s n hs hp
    simp [resolveDownloadTimeoutMs, hs, hp]
  · intro url label n e h1 h2 habort
    simp [downloadRemoteImageAsBase64, h1, h2, habort]
  · intro up engEnv kycEnv input u n e h1 h2 h3 h4 habort
    have hu : u ≠ "" := jsOrNull_ne_empty h2
    simp [verifyCnicHandler, resolveCnicImage, resolveImageSlot, h1, h2,
      isTruthy_some_of_ne hu, downloadRemoteImageAsBase64, h3, h4, habort,
      finishHandler]
  · intro n0
    refine ⟨" downloading CNIC image from " ++ n0, ?_⟩
    rw [← String.append_assoc]
    congr 1

/-- C8 witness: override to 1000 ms; abort on a concrete allow-listed URL;
the 500 surfaced by the handler. -/
theorem c8_witness :
    resolveDownloadTimeoutMs (some "1000") = 1000 ∧
    downloadRemoteImageAsBase64
      (NetOutcome.err ⟨"AbortError", "This operation was aborted"⟩)
      "https://res.cloudinary.com/a.jpg" "CNIC image" =
      (Except.error "Timed out downloading CNIC image from https://res.cloudinary.com/a.jpg",
        true) ∧
    verifyCnicHandler (NetOutcome.err ⟨"AbortError", "This operation was aborted"⟩)
      (NetOutcome.resp ⟨200, "", []⟩) none (some "http://e")
      { cnicFrontUrl := some "https://res.cloudinary.com/a.jpg" } =
      ⟨⟨500, ResBody.errJson
          "Timed out downloading CNIC image from https://res.cloudinary.com/a.jpg"⟩,
        true, false⟩ := by
  refine ⟨?_, ?_, ?_⟩
  · exact c8_download_timeout.2.2.1 "1000" 1000 (by decide) rfl
  · exact c8_download_timeout.2.2.2.1 "https://res.cloudinary.com/a.jpg" "CNIC image"
      "https://res.cloudinary.com/a.jpg" ⟨"AbortError", "This operation was aborted"⟩
      rfl rfl rfl
  · exact c8_download_timeout.2.2.2.2.1 (NetOutcome.resp ⟨200, "", []⟩) none
      (some "http://e") { cnicFrontUrl := some "https://res.cloudinary.com/a.jpg" }
      "https://res.cloudinary.com/a.jpg" "https://res.cloudinary.com/a.jpg"
      ⟨"AbortError", "This operation was aborted"⟩ rfl rfl rfl rfl rfl

end KycGate
